import Mathlib

/-!
Shallow embedding of the browser voice pipeline
(`src/hooks/useVoicePipeline.ts` and `server/index.js`).

JavaScript numbers are modelled as rationals (`ℚ`); the decimal
literals of the source become exact rationals (0.98 = 49/50, 0.02 = 1/50,
0.06 = 3/50).  Stateful code is modelled by explicit state passing; each
VAD interval tick becomes one application of a step function, and JS
truthiness (`x || y`, `if (x)`) is modelled explicitly on `Option` values
(empty string and zero are falsy).
-/

namespace VoicePipeline

/-! ## Adaptive VAD (useVoicePipeline.ts, startConversation interval callback) -/

/-- Configuration snapshot used by the VAD loop (`config.vadThreshold`,
`config.silenceDurationMs`). -/
structure VadCfg where
  vadThreshold : ℚ
  silenceDurationMs : ℚ
  deriving Repr, DecidableEq

/-- Mutable refs read and written by the VAD interval callback:
`noiseFloorRef`, `vadVoiceStateRef`, `speakingRef`, `lastVoiceMsRef`. -/
structure VadState where
  noiseFloor : ℚ
  voiceState : Bool
  speaking : Bool
  lastVoiceMs : ℚ
  deriving Repr, DecidableEq

/-- `const margin = 0.02 + 0.06 * config.vadThreshold`. -/
def vadMargin (threshold : ℚ) : ℚ := 1/50 + 3/50 * threshold

/-- `const onThresh = noiseFloorRef.current + margin`. -/
def onThresh (noiseFloor threshold : ℚ) : ℚ := noiseFloor + vadMargin threshold

/-- `const offThresh = noiseFloorRef.current + margin * 0.5`. -/
def offThresh (noiseFloor threshold : ℚ) : ℚ := noiseFloor + vadMargin threshold * (1/2)

/-- Result of one VAD tick: the updated refs plus the side effects the
tick performs (`startRecorder` on speech start, `stopRecorder` on speech
end, and which target the gate gain is ramped towards). -/
structure VadResult where
  state : VadState
  speechStart : Bool
  speechEnd : Bool
  gateOpen : Bool
  deriving Repr, DecidableEq

/-- One execution of the 50 ms VAD interval callback, given the RMS
measured on this tick and the current time `now` (performance.now()). -/
def vadStep (cfg : VadCfg) (s : VadState) (rms now : ℚ) : VadResult :=
  -- Update adaptive noise floor when not speaking (alpha = 0.98)
  let nf := if s.voiceState then s.noiseFloor else s.noiseFloor * (49/50) + rms * (1/50)
  let onT := onThresh nf cfg.vadThreshold
  let offT := offThresh nf cfg.vadThreshold
  let isVoice : Bool := if s.voiceState then decide (rms > offT) else decide (rms > onT)
  if isVoice then
    { state := { noiseFloor := nf
               , voiceState := if s.speaking then s.voiceState else true
               , speaking := true
               , lastVoiceMs := now }
    , speechStart := !s.speaking
    , speechEnd := false
    , gateOpen := true }
  else
    if s.speaking ∧ now - s.lastVoiceMs ≥ cfg.silenceDurationMs then
      { state := { noiseFloor := nf, voiceState := false, speaking := false
                 , lastVoiceMs := s.lastVoiceMs }
      , speechStart := false
      , speechEnd := true
      , gateOpen := false }
    else
      { state := { s with noiseFloor := nf }
      , speechStart := false
      , speechEnd := false
      , gateOpen := false }

/-- Folding the tick callback over a list of `(rms, now)` samples. -/
def vadRun (cfg : VadCfg) (s : VadState) (ticks : List (ℚ × ℚ)) : VadState :=
  ticks.foldl (fun st t => (vadStep cfg st t.1 t.2).state) s

/-- The states the VAD loop passes through while processing `ticks`
(initial state included, final state included). -/
def vadStatesAlong (cfg : VadCfg) : VadState → List (ℚ × ℚ) → List VadState
  | s, [] => [s]
  | s, t :: ts => s :: vadStatesAlong cfg (vadStep cfg s t.1 t.2).state ts

/-! ## Audio level analyser (computeAudioLevelAndVad, lines 76-97) -/

/-- The mean of `((sample - 128) / 128)^2` over the analyser window
(`sumSquares / bufferLength`); the RMS of the source is its square root. -/
def rmsSq (samples : List ℕ) : ℚ :=
  (samples.map (fun b => (((b : ℚ) - 128) / 128) ^ 2)).sum / (samples.length : ℚ)

/-- JavaScript `Math.round` (round half towards +∞). -/
def jsRound (q : ℚ) : ℤ := ⌊q + 1/2⌋

/-- `const level = Math.max(0, Math.min(255, Math.round(rms * 255)))`. -/
def displayLevel (rms : ℚ) : ℤ := max 0 (min 255 (jsRound (rms * 255)))

/-! ## Playback controller (tryStream, lines 230-350) -/

/-- `const enableStreaming = false; // Temporarily disabled for reliability`. -/
def enableStreaming : Bool := false

/-- The runtime facts `tryStream` tests before choosing streaming:
`resp.body` non-null, `'MediaSource' in window && window.MediaSource`,
`typeof MediaSource.isTypeSupported === 'function'`, and
`MediaSource.isTypeSupported('audio/mpeg')`. -/
structure PlaybackRuntime where
  bodyReadable : Bool
  hasMediaSource : Bool
  isTypeSupportedIsFunction : Bool
  mpegSupported : Bool
  deriving Repr, DecidableEq

/-- `const canUseMSE = enableStreaming && !!(resp.body && 'MediaSource' in window
&& ... && MediaSource.isTypeSupported('audio/mpeg'))`. -/
def canUseMSE (rt : PlaybackRuntime) : Bool :=
  enableStreaming && (rt.bodyReadable && rt.hasMediaSource &&
    rt.isTypeSupportedIsFunction && rt.mpegSupported)

/-- The two playback paths of `tryStream`. -/
inductive PlaybackMode
  | streaming
  | buffered
  deriving Repr, DecidableEq

/-- `if (!canUseMSE) { await fallbackToBlob(); return; }` — the mode the
controller enters for a response under the given runtime. -/
def initialPlaybackMode (rt : PlaybackRuntime) : PlaybackMode :=
  if canUseMSE rt then .streaming else .buffered

/-- Bytes played by the full-buffer path: `await resp.blob()` is the whole
response body (chunks concatenated). -/
def fullBufferBytes (body : List (List ℕ)) : List ℕ := body.flatten

/-- Bytes the watchdog path plays: `new Blob(receivedChunks)` where
`receivedChunks` holds the first `k` chunks read before the watchdog
fired. -/
def watchdogFallbackBytes (body : List (List ℕ)) (k : ℕ) : List ℕ := (body.take k).flatten

/-- The mutable streaming-session flags of `tryStream` (`started`,
`aborted`, `receivedChunks`). -/
structure StreamingAttempt where
  started : Bool
  aborted : Bool
  receivedChunks : List (List ℕ)
  deriving Repr, DecidableEq

/-- The 1200 ms watchdog callback: `if (!started && !aborted) { aborted = true;
reader.cancel(); ...; fallbackToBlob(new Blob(receivedChunks)) }`.  Returns
the updated flags and, when it acted, the byte content of the blob handed
to `fallbackToBlob`. -/
def watchdogFire (st : StreamingAttempt) : StreamingAttempt × Option (List ℕ) :=
  if !st.started && !st.aborted then
    ({ st with aborted := true }, some st.receivedChunks.flatten)
  else
    (st, none)

/-! ## Utterance recorder (recorder.ondataavailable / recorder.onstop) -/

/-- `recorder.ondataavailable`: push the event's data only when
`e.data && e.data.size > 0`. -/
def ondataavailable (chunks : List (List ℕ)) (data : List ℕ) : List (List ℕ) :=
  if data.length > 0 then chunks ++ [data] else chunks

/-- The multipart POST issued by `recorder.onstop` (its audio payload). -/
structure UploadRequest where
  audioBytes : List ℕ
  deriving Repr, DecidableEq

/-- `recorder.onstop`: build `new Blob(chunksRef.current)`, clear
`chunksRef.current`, and always `fetch(.../api/voice/process)` with the
blob — there is no guard discarding an empty payload.  Returns the new
chunk list and the request that is issued (`some` = a request is made). -/
def recorderOnStop (chunks : List (List ℕ)) : List (List ℕ) × Option UploadRequest :=
  ([], some ⟨chunks.flatten⟩)

/-- `MediaRecorder` state after `stop()` resolves: `'inactive'`. -/
inductive RecorderState
  | inactive
  | recording
  deriving Repr, DecidableEq

/-- `stopRecorder` leaves the recorder inactive regardless of its state. -/
def mediaRecorderStop (_ : RecorderState) : RecorderState := .inactive

/-! ## Session controller state (useVoicePipeline hook state and refs) -/

/-- `AppState` from src/types. -/
inductive AppStateE
  | idle
  | connecting
  | listening
  | speaking
  | errorState
  deriving Repr, DecidableEq

/-- `ConnectionState` from src/types. -/
inductive ConnState
  | disconnected
  | connecting
  | connected
  | errorState
  deriving Repr, DecidableEq

/-- `AppError.type` from src/types. -/
inductive ClientErrorType
  | microphone
  | connection
  | api
  | general
  deriving Repr, DecidableEq

/-- `AppError` from src/types. -/
structure ClientError where
  type : ClientErrorType
  message : String
  deriving Repr, DecidableEq

/-- A `MediaStreamTrack` as far as `stopConversation` observes it. -/
structure MediaTrack where
  stopped : Bool
  deriving Repr, DecidableEq

/-- The hook state touched by `stopConversation`: the four `useState`
values and the refs.  A timer ref keeps its handle after cancellation
(the source never nulls `rafRef`/`vadIntervalRef`), so timers are
`Option Bool` — `some true` scheduled, `some false` cancelled.  The
recorder ref is `some true` while recording. -/
structure HookState where
  state : AppStateE
  connectionState : ConnState
  error : Option ClientError
  audioLevel : ℚ
  rafTimer : Option Bool
  vadInterval : Option Bool
  activeAudio : Option Unit
  mediaStream : Option (List MediaTrack)
  processedStream : Option Unit
  gateGain : Option Unit
  preGain : Option Unit
  audioContext : Option Unit
  analyser : Option Unit
  recorder : Option Bool
  deriving Repr, DecidableEq

/-- `stopConversation` (lines 513-541): cancel both timers, stop the
recorder, pause and drop the audio element, stop every mic track and drop
the stream, null all graph refs, and reset state/connection/error/level.
Returns the new hook state together with the (stopped) tracks this call
stopped. -/
def stopConversation (s : HookState) : HookState × List MediaTrack :=
  ( { state := .idle
    , connectionState := .disconnected
    , error := none
    , audioLevel := 0
    , rafTimer := s.rafTimer.map (fun _ => false)
    , vadInterval := s.vadInterval.map (fun _ => false)
    , activeAudio := none
    , mediaStream := none
    , processedStream := none
    , gateGain := none
    , preGain := none
    , audioContext := none
    , analyser := none
    , recorder := none }
  , (s.mediaStream.getD []).map (fun t => { t with stopped := true }) )

/-! ## Server-side error classification (/api/voice/process catch block) -/

/-- Substring test, modelling JavaScript `String.prototype.includes`. -/
def strContains (hay needle : String) : Bool :=
  hay.toList.tails.any (fun t => needle.toList.isPrefixOf t)

/-- The pipeline stage a non-2xx error is attributed to. -/
inductive PipelineStage
  | stt
  | llm
  | tts
  | unknown
  deriving Repr, DecidableEq

/-- The catch block of `/api/voice/process`: classify by string-matching
`err.message` (`Whisper`/`transcription` → STT, `GPT`/`LLM` → LLM,
`TTS` → TTS, otherwise unknown). -/
def classifyPipelineError (msg : String) : PipelineStage :=
  if strContains msg "Whisper" || strContains msg "transcription" then .stt
  else if strContains msg "GPT" || strContains msg "LLM" then .llm
  else if strContains msg "TTS" then .tts
  else .unknown

/-- The `error` field of the JSON body each stage maps to. -/
def pipelineErrorText : PipelineStage → String
  | .stt => "STT service failed"
  | .llm => "LLM service failed"
  | .tts => "TTS service failed"
  | .unknown => "Server error in voice pipeline"

/-- The non-2xx response the server sends: status 500, the stage's error
text, and `err.message` as `details`. -/
def voiceProcessErrorResponse (msg : String) : ℕ × String × String :=
  (500, pipelineErrorText (classifyPipelineError msg), msg)

/-- What the client sees of the upload's HTTP response. -/
structure HttpResponse where
  ok : Bool
  status : ℕ
  errorBody : String
  deriving Repr, DecidableEq

/-- `recorder.onstop` lines 176-180: `if (!resp.ok) { setError({ type: 'api',
message: t('error.general') }); setState('error'); return; }` — the outcome
(error value and state) the client produces for a non-ok response; the
response body is never read. -/
def clientNonOkOutcome (resp : HttpResponse) : Option (ClientError × AppStateE) :=
  if resp.ok then none else some (⟨.api, "error.general"⟩, .errorState)

/-! ## Route-dependent upload form and server config resolution -/

/-- `const isDevRoute = location.pathname === '/dev' || location.pathname === '/debug'`. -/
def isDevRoute (pathname : String) : Bool := pathname == "/dev" || pathname == "/debug"

/-- JS `a || b` for an optional string field (empty string is falsy). -/
def jsOrStr (a : Option String) (b : String) : String :=
  match a with
  | some s => if s = "" then b else s
  | none => b

/-- JS truthiness of an optional number (`0` and absence are falsy). -/
def truthyNum (a : Option ℚ) : Bool :=
  match a with
  | some x => decide (x ≠ 0)
  | none => false

/-- JS `a || b` for an optional number field (`0` is falsy). -/
def jsOrNum (a : Option ℚ) (b : ℚ) : ℚ :=
  match a with
  | some x => if x = 0 then b else x
  | none => b

/-- The client configuration fields `recorder.onstop` reads. -/
structure ClientConfig where
  systemPrompt : String
  temperature : ℚ
  voice : String
  aiLanguage : Option String
  ttsProvider : Option String
  ttsModel : Option String
  greeting : Option String
  openaiSpeed : Option ℚ
  piperSpeed : Option ℚ
  piperPitch : Option ℚ
  coquiTemperature : Option ℚ
  deriving Repr, DecidableEq

/-- `(config.aiLanguage === 'en' ? 'en' : 'de')`. -/
def langField (c : ClientConfig) : String :=
  if c.aiLanguage = some "en" then "en" else "de"

/-- The multipart form fields of one utterance upload (`none` = the field
is not appended). -/
structure VoiceForm where
  hasAudio : Bool
  systemPrompt : Option String
  temperature : Option ℚ
  voice : Option String
  language : Option String
  ttsProvider : Option String
  ttsModel : Option String
  greeting : Option String
  openaiSpeed : Option ℚ
  piperSpeed : Option ℚ
  piperPitch : Option ℚ
  coquiTemperature : Option ℚ
  deriving Repr, DecidableEq

/-- `recorder.onstop` lines 142-169: the audio blob is always appended; on
the home route every config parameter is appended (provider knobs only
when truthy); on a dev route only the language is appended. -/
def buildVoiceForm (pathname : String) (c : ClientConfig) : VoiceForm :=
  if isDevRoute pathname then
    { hasAudio := true, systemPrompt := none, temperature := none, voice := none
    , language := some (langField c), ttsProvider := none, ttsModel := none
    , greeting := none, openaiSpeed := none, piperSpeed := none, piperPitch := none
    , coquiTemperature := none }
  else
    { hasAudio := true
    , systemPrompt := some c.systemPrompt
    , temperature := some c.temperature
    , voice := some c.voice
    , language := some (langField c)
    , ttsProvider := some (jsOrStr c.ttsProvider "openai")
    , ttsModel := some (jsOrStr c.ttsModel "tts-1")
    , greeting := some (jsOrStr c.greeting "")
    , openaiSpeed := if truthyNum c.openaiSpeed then c.openaiSpeed else none
    , piperSpeed := if truthyNum c.piperSpeed then c.piperSpeed else none
    , piperPitch := if truthyNum c.piperPitch then c.piperPitch else none
    , coquiTemperature := if truthyNum c.coquiTemperature then c.coquiTemperature else none }

/-- The Firebase settings cache fields `/api/voice/process` reads
(`firebaseSettingsService.getCurrentSettings()`). -/
structure FirebaseSettings where
  aiLanguage : Option String
  systemPrompt : Option String
  temperature : Option ℚ
  voice : Option String
  ttsProvider : Option String
  ttsModel : Option String
  openaiSpeed : Option ℚ
  piperSpeed : Option ℚ
  piperPitch : Option ℚ
  coquiTemperature : Option ℚ
  deriving Repr, DecidableEq

/-- Hardcoded English default system prompt of `/api/voice/process`. -/
def defaultSystemPromptEn : String :=
  "You are a helpful, friendly assistant. Reply concisely and in English."

/-- Hardcoded German default system prompt of `/api/voice/process`. -/
def defaultSystemPromptDe : String :=
  "Du bist Buddy, ein warmherziger älterer Mann, der ruhig, humorvoll und geduldig spricht. "
    ++ "Du hörst aufmerksam zu und gibst hilfreiche, ermutigende Antworten. "
    ++ "Du sprichst Deutsch und verwendest eine freundliche, respektvolle Sprache. "
    ++ "Halte deine Antworten kurz und prägnant, aber warmherzig."

/-- The configuration `/api/voice/process` ends up using. -/
structure ResolvedConfig where
  language : String
  systemPrompt : String
  temperature : ℚ
  voice : String
  ttsProvider : String
  ttsModel : String
  openaiSpeed : ℚ
  piperSpeed : ℚ
  piperPitch : ℚ
  coquiTemperature : ℚ
  deriving Repr, DecidableEq

/-- `/api/voice/process` config resolution (server/index.js lines 391-429):
each parameter is `req.body.X || firebaseSettings.X || default`, with the
request temperature clamped to [0, 2] before the `||` chain. -/
def resolveVoiceConfig (form : VoiceForm) (fb : FirebaseSettings) : ResolvedConfig :=
  let language := jsOrStr form.language (jsOrStr fb.aiLanguage "de")
  { language := language
  , systemPrompt := jsOrStr form.systemPrompt (jsOrStr fb.systemPrompt
      (if language = "en" then defaultSystemPromptEn else defaultSystemPromptDe))
  , temperature := jsOrNum (form.temperature.map (fun t => max 0 (min 2 t)))
      (jsOrNum fb.temperature (7/10))
  , voice := jsOrStr form.voice (jsOrStr fb.voice "alloy")
  , ttsProvider := jsOrStr form.ttsProvider (jsOrStr fb.ttsProvider "openai")
  , ttsModel := jsOrStr form.ttsModel (jsOrStr fb.ttsModel "tts-1")
  , openaiSpeed := jsOrNum form.openaiSpeed (jsOrNum fb.openaiSpeed 1)
  , piperSpeed := jsOrNum form.piperSpeed (jsOrNum fb.piperSpeed 1)
  , piperPitch := jsOrNum form.piperPitch (jsOrNum fb.piperPitch 1)
  , coquiTemperature := jsOrNum form.coquiTemperature (jsOrNum fb.coquiTemperature (7/10)) }

end VoicePipeline

namespace VoicePipeline

/-! ## Helper lemmas about one VAD tick -/

/-- The noise floor after one tick, in both voice states. -/
theorem vadStep_noiseFloor (cfg : VadCfg) (s : VadState) (rms now : ℚ) :
    (vadStep cfg s rms now).state.noiseFloor =
      if s.voiceState then s.noiseFloor else s.noiseFloor * (49/50) + rms * (1/50) := by
  simp only [vadStep]
  split <;> split <;> first | rfl | (split <;> rfl)

/-- While speaking with `voiceState = true`, one tick reduces to a plain
three-way case split on the exit threshold and the silence timer. -/
theorem vadStep_speaking (cfg : VadCfg) (s : VadState) (rms now : ℚ)
    (hs : s.speaking = true) (hv : s.voiceState = true) :
    vadStep cfg s rms now =
      if offThresh s.noiseFloor cfg.vadThreshold < rms then
        { state := { noiseFloor := s.noiseFloor, voiceState := true, speaking := true
                   , lastVoiceMs := now }
        , speechStart := false, speechEnd := false, gateOpen := true }
      else if cfg.silenceDurationMs ≤ now - s.lastVoiceMs then
        { state := { noiseFloor := s.noiseFloor, voiceState := false, speaking := false
                   , lastVoiceMs := s.lastVoiceMs }
        , speechStart := false, speechEnd := true, gateOpen := false }
      else
        { state := s, speechStart := false, speechEnd := false, gateOpen := false } := by
  obtain ⟨nf0, vs0, sp0, lv0⟩ := s
  obtain rfl : sp0 = true := hs
  obtain rfl : vs0 = true := hv
  simp only [vadStep, gt_iff_lt, ge_iff_le, decide_eq_true_eq, Bool.not_true, true_and,
    if_true, ite_true, eq_self_iff_true]

/-! ## Theorems about the noise floor (claim C1) -/

/-- C1: on every VAD tick, if `voiceState` is true the noise floor is left
unchanged, and if `voiceState` is false it is updated to
`noiseFloor*0.98 + rms*0.02`; hence once `voiceState` is true, the noise
floor does not change over any run of ticks throughout which `voiceState`
stays true. -/
theorem noiseFloor_frozen_while_voice :
    (∀ (cfg : VadCfg) (s : VadState) (rms now : ℚ), s.voiceState = true →
      (vadStep cfg s rms now).state.noiseFloor = s.noiseFloor) ∧
    (∀ (cfg : VadCfg) (s : VadState) (rms now : ℚ), s.voiceState = false →
      (vadStep cfg s rms now).state.noiseFloor = s.noiseFloor * (49/50) + rms * (1/50)) ∧
    (∀ (cfg : VadCfg) (s : VadState) (ticks : List (ℚ × ℚ)),
      (vadStatesAlong cfg s ticks).all (·.voiceState) = true →
      (vadRun cfg s ticks).noiseFloor = s.noiseFloor) := by
  refine ⟨fun cfg s rms now hv => by rw [vadStep_noiseFloor, hv, if_pos rfl],
    fun cfg s rms now hv => by rw [vadStep_noiseFloor, hv]; simp,
    fun cfg s ticks => ?_⟩
  induction ticks generalizing s with
  | nil => intro _; rfl
  | cons t ts ih =>
    intro hall
    simp only [vadStatesAlong, List.all_cons, Bool.and_eq_true] at hall
    have hv : s.voiceState = true := hall.1
    have hfloor : (vadStep cfg s t.1 t.2).state.noiseFloor = s.noiseFloor := by
      rw [vadStep_noiseFloor, hv, if_pos rfl]
    calc (vadRun cfg s (t :: ts)).noiseFloor
        = (vadRun cfg (vadStep cfg s t.1 t.2).state ts).noiseFloor := rfl
      _ = (vadStep cfg s t.1 t.2).state.noiseFloor := ih _ hall.2
      _ = s.noiseFloor := hfloor

/-- Witness for `noiseFloor_frozen_while_voice`: a two-tick run that stays
in the voice state leaves the noise floor at its initial value 1/100. -/
theorem noiseFloor_frozen_while_voice_witness :
    ((vadStatesAlong ⟨0, 500⟩ ⟨1/100, true, true, 0⟩ [(0, 50), (0, 100)]).all
      (·.voiceState) = true) ∧
    (vadRun ⟨0, 500⟩ ⟨1/100, true, true, 0⟩ [(0, 50), (0, 100)]).noiseFloor =
      (⟨1/100, true, true, 0⟩ : VadState).noiseFloor :=
  ⟨by norm_num [vadStatesAlong, vadStep, offThresh, onThresh, vadMargin],
   noiseFloor_frozen_while_voice.2.2 ⟨0, 500⟩ ⟨1/100, true, true, 0⟩
    [(0, 50), (0, 100)]
    (by norm_num [vadStatesAlong, vadStep, offThresh, onThresh, vadMargin])⟩

/-! ## Theorems about speech-end debouncing (claim C2) -/

/-- C2: while speaking, speech-end fires on a tick iff the tick's RMS is at
or below the exit threshold and at least `silenceDurationMs` has elapsed
since `lastVoiceTimestamp`; when it fires, the recorder is stopped and
`voiceState` resets to false.  `lastVoiceTimestamp` is exactly the time of
the last above-threshold tick (so every tick since it was below the
threshold), and a below-threshold tick followed by an above-threshold tick
before the duration elapses does not end the utterance and resets the
silence timer. -/
theorem speech_end_characterization :
    (∀ (cfg : VadCfg) (s : VadState) (rms now : ℚ), s.speaking = true → s.voiceState = true →
      (((vadStep cfg s rms now).speechEnd = true ↔
        (rms ≤ offThresh s.noiseFloor cfg.vadThreshold ∧
         cfg.silenceDurationMs ≤ now - s.lastVoiceMs)) ∧
       ((vadStep cfg s rms now).speechEnd = true →
         (vadStep cfg s rms now).state.voiceState = false ∧
         (vadStep cfg s rms now).state.speaking = false))) ∧
    (∀ (cfg : VadCfg) (s : VadState) (rms now : ℚ), s.speaking = true → s.voiceState = true →
      ((offThresh s.noiseFloor cfg.vadThreshold < rms →
        (vadStep cfg s rms now).state.lastVoiceMs = now) ∧
       (rms ≤ offThresh s.noiseFloor cfg.vadThreshold →
        (vadStep cfg s rms now).state.lastVoiceMs = s.lastVoiceMs))) ∧
    (∀ (cfg : VadCfg) (s : VadState) (r₁ t₁ r₂ t₂ : ℚ),
      s.speaking = true → s.voiceState = true →
      r₁ ≤ offThresh s.noiseFloor cfg.vadThreshold →
      t₁ - s.lastVoiceMs < cfg.silenceDurationMs →
      offThresh s.noiseFloor cfg.vadThreshold < r₂ →
      (vadStep cfg s r₁ t₁).speechEnd = false ∧
      (vadStep cfg (vadStep cfg s r₁ t₁).state r₂ t₂).speechEnd = false ∧
      (vadStep cfg (vadStep cfg s r₁ t₁).state r₂ t₂).state.speaking = true ∧
      (vadStep cfg (vadStep cfg s r₁ t₁).state r₂ t₂).state.lastVoiceMs = t₂) := by
  refine ⟨fun cfg s rms now hs hv => ?_, fun cfg s rms now hs hv => ?_,
    fun cfg s r₁ t₁ r₂ t₂ hs hv h₁ ht h₂ => ?_⟩
  · rw [vadStep_speaking cfg s rms now hs hv]
    split_ifs with h h'
    · refine ⟨⟨fun hfalse => absurd hfalse (by simp), fun hc => absurd h (not_lt.mpr hc.1)⟩,
        fun hfalse => absurd hfalse (by simp)⟩
    · exact ⟨⟨fun _ => ⟨not_lt.mp h, h'⟩, fun _ => rfl⟩, fun _ => ⟨rfl, rfl⟩⟩
    · refine ⟨⟨fun hfalse => absurd hfalse (by simp), fun hc => absurd hc.2 h'⟩,
        fun hfalse => absurd hfalse (by simp)⟩
  · rw [vadStep_speaking cfg s rms now hs hv]
    refine ⟨fun h => ?_, fun h => ?_⟩
    · rw [if_pos h]
    · rw [if_neg (not_lt.mpr h)]
      split_ifs <;> rfl
  · have hstep₁ : vadStep cfg s r₁ t₁ =
        { state := s, speechStart := false, speechEnd := false, gateOpen := false } := by
      rw [vadStep_speaking cfg s r₁ t₁ hs hv, if_neg (not_lt.mpr h₁),
        if_neg (not_le.mpr ht)]
    have hstate₁ : (vadStep cfg s r₁ t₁).state = s := by rw [hstep₁]
    refine ⟨by rw [hstep₁], ?_, ?_, ?_⟩ <;>
      rw [hstate₁, vadStep_speaking cfg s r₂ t₂ hs hv, if_pos h₂]

/-- Witness for `speech_end_characterization`: from a speaking state with
silence duration 500, a below-threshold tick at t=100 followed by an
above-threshold tick at t=150 does not end the utterance and resets
`lastVoiceMs` to 150. -/
theorem speech_end_characterization_witness :
    ((0:ℚ) ≤ offThresh (1/100) 0 ∧ (100:ℚ) - 0 < 500 ∧ offThresh (1/100) 0 < 1) ∧
    ((vadStep ⟨0, 500⟩ ⟨1/100, true, true, 0⟩ 0 100).speechEnd = false ∧
     (vadStep ⟨0, 500⟩ (vadStep ⟨0, 500⟩ ⟨1/100, true, true, 0⟩ 0 100).state 1 150).speechEnd
       = false ∧
     (vadStep ⟨0, 500⟩ (vadStep ⟨0, 500⟩ ⟨1/100, true, true, 0⟩ 0 100).state 1 150).state.speaking
       = true ∧
     (vadStep ⟨0, 500⟩ (vadStep ⟨0, 500⟩ ⟨1/100, true, true, 0⟩ 0 100).state 1 150).state.lastVoiceMs
       = 150) :=
  ⟨⟨by norm_num [offThresh, vadMargin], by norm_num, by norm_num [offThresh, vadMargin]⟩,
   speech_end_characterization.2.2 ⟨0, 500⟩ ⟨1/100, true, true, 0⟩ 0 100 1 150
     rfl rfl (by norm_num [offThresh, vadMargin]) (by norm_num)
     (by norm_num [offThresh, vadMargin])⟩

/-! ## Theorems about the hysteresis thresholds (claim C3) -/

/-- C3: for every noise floor and every user threshold ≥ 0, with
`margin = 0.02 + 0.06 * threshold`, the entry threshold
`onThresh = noiseFloor + margin` and the exit threshold
`offThresh = noiseFloor + margin * 0.5` satisfy
`onThresh - offThresh = margin * 0.5 > 0`; in particular threshold 0
still leaves a strictly positive hysteresis band from the base margin. -/
theorem hysteresis_band_positive (nf t : ℚ) (ht : 0 ≤ t) :
    onThresh nf t - offThresh nf t = vadMargin t * (1/2) ∧
    0 < vadMargin t * (1/2) ∧
    onThresh nf 0 - offThresh nf 0 = 1/100 := by
  refine ⟨by simp only [onThresh, offThresh]; ring, ?_,
    by norm_num [onThresh, offThresh, vadMargin]⟩
  have h : 0 < vadMargin t := by
    have : 0 ≤ 3/50 * t := by positivity
    simp only [vadMargin]
    linarith
  linarith

/-- Witness for `hysteresis_band_positive` at `noiseFloor = 1/100`,
`threshold = 0`. -/
theorem hysteresis_band_positive_witness :
    (0:ℚ) ≤ 0 ∧
    (onThresh (1/100) 0 - offThresh (1/100) 0 = vadMargin 0 * (1/2) ∧
     0 < vadMargin 0 * (1/2) ∧
     onThresh (1/100) 0 - offThresh (1/100) 0 = 1/100) :=
  ⟨le_refl 0, hysteresis_band_positive (1/100) 0 (le_refl 0)⟩

/-! ## Theorems about the display level (claim C7) -/

/-- C7: `rmsSq` is the mean of `((sample-128)/128)^2` over the window, the
displayed level is `round(clamp(rms*255, 0, 255))`, and as a function of
rms over [0,1] the displayed level is monotone non-decreasing and always
an integer in [0, 255]. -/
theorem display_level_formula :
    (∀ samples : List ℕ,
      rmsSq samples =
        (samples.map (fun b => (((b : ℚ) - 128) / 128) ^ 2)).sum / (samples.length : ℚ)) ∧
    (∀ r : ℚ, displayLevel r = max 0 (min 255 ⌊r * 255 + 1/2⌋)) ∧
    (∀ r₁ r₂ : ℚ, 0 ≤ r₁ → r₁ ≤ r₂ → r₂ ≤ 1 → displayLevel r₁ ≤ displayLevel r₂) ∧
    (∀ r : ℚ, 0 ≤ displayLevel r ∧ displayLevel r ≤ 255) := by
  refine ⟨fun _ => rfl, fun _ => rfl, fun r₁ r₂ h0 h12 h1 => ?_,
    fun r => ⟨le_max_left _ _, max_le (by norm_num) (min_le_left _ _)⟩⟩
  have hf : (⌊r₁ * 255 + 1/2⌋ : ℤ) ≤ ⌊r₂ * 255 + 1/2⌋ := Int.floor_mono (by linarith)
  exact max_le_max (le_refl 0) (min_le_min (le_refl 255) hf)

/-- Witness for `display_level_formula` at rms values 1/4 ≤ 1/2. -/
theorem display_level_formula_witness :
    ((0:ℚ) ≤ 1/4 ∧ (1/4:ℚ) ≤ 1/2 ∧ (1/2:ℚ) ≤ 1) ∧
    displayLevel (1/4) ≤ displayLevel (1/2) :=
  ⟨⟨by norm_num, by norm_num, by norm_num⟩,
   display_level_formula.2.2.1 (1/4) (1/2) (by norm_num) (by norm_num) (by norm_num)⟩

/-! ## Theorems about stopConversation (claim C8) -/

/-- C8: `stopConversation` is idempotent and safe from every state
(including the error state): a second call changes nothing and stops no
further tracks, and one call always yields state idle, connection
disconnected, error cleared, audio level 0, both timers cancelled, every
stopped track stopped, and every media/graph/recorder reference nulled;
the resulting observable state is the same whatever state it is called
from. -/
theorem stopConversation_idempotent :
    ∀ s : HookState,
      (stopConversation (stopConversation s).1).1 = (stopConversation s).1 ∧
      (stopConversation (stopConversation s).1).2 = [] ∧
      (stopConversation s).1.state = .idle ∧
      (stopConversation s).1.connectionState = .disconnected ∧
      (stopConversation s).1.error = none ∧
      (stopConversation s).1.audioLevel = 0 ∧
      ((stopConversation s).1.rafTimer = none ∨ (stopConversation s).1.rafTimer = some false) ∧
      ((stopConversation s).1.vadInterval = none ∨
        (stopConversation s).1.vadInterval = some false) ∧
      (∀ t ∈ (stopConversation s).2, t.stopped = true) ∧
      (stopConversation s).1.mediaStream = none ∧
      (stopConversation s).1.activeAudio = none ∧
      (stopConversation s).1.processedStream = none ∧
      (stopConversation s).1.gateGain = none ∧
      (stopConversation s).1.preGain = none ∧
      (stopConversation s).1.audioContext = none ∧
      (stopConversation s).1.analyser = none ∧
      (stopConversation s).1.recorder = none ∧
      (∀ s' : HookState,
        (stopConversation s).1.state = (stopConversation s').1.state ∧
        (stopConversation s).1.connectionState = (stopConversation s').1.connectionState ∧
        (stopConversation s).1.error = (stopConversation s').1.error ∧
        (stopConversation s).1.audioLevel = (stopConversation s').1.audioLevel) := by
  intro s
  refine ⟨?_, rfl, rfl, rfl, rfl, rfl, ?_, ?_, ?_, rfl, rfl, rfl, rfl, rfl, rfl, rfl, rfl,
    fun s' => ⟨rfl, rfl, rfl, rfl⟩⟩
  · obtain ⟨st, cs, er, al, raf, vi, aa, ms, ps, gg, pg, ac, an, rc⟩ := s
    cases raf <;> cases vi <;> rfl
  · obtain ⟨st, cs, er, al, raf, vi, aa, ms, ps, gg, pg, ac, an, rc⟩ := s
    cases raf
    · exact Or.inl rfl
    · exact Or.inr rfl
  · obtain ⟨st, cs, er, al, raf, vi, aa, ms, ps, gg, pg, ac, an, rc⟩ := s
    cases vi
    · exact Or.inl rfl
    · exact Or.inr rfl
  · intro t ht
    simp only [stopConversation, List.mem_map] at ht
    obtain ⟨u, hu, rfl⟩ := ht
    rfl

/-- Witness for `stopConversation_idempotent`: stopping from a concrete
error state stops its live track and a second stop is a no-op. -/
theorem stopConversation_idempotent_witness :
    ((⟨true⟩ : MediaTrack) ∈ (stopConversation ⟨.errorState, .errorState,
        some ⟨.general, "boom"⟩, 50, some true, some true, some (), some [⟨false⟩],
        some (), some (), some (), some (), some (), some true⟩).2) ∧
    (⟨true⟩ : MediaTrack).stopped = true ∧
    (stopConversation (stopConversation ⟨.errorState, .errorState,
        some ⟨.general, "boom"⟩, 50, some true, some true, some (), some [⟨false⟩],
        some (), some (), some (), some (), some (), some true⟩).1).1 =
      (stopConversation ⟨.errorState, .errorState,
        some ⟨.general, "boom"⟩, 50, some true, some true, some (), some [⟨false⟩],
        some (), some (), some (), some (), some (), some true⟩).1 :=
  ⟨by decide,
   (stopConversation_idempotent ⟨.errorState, .errorState, some ⟨.general, "boom"⟩, 50,
      some true, some true, some (), some [⟨false⟩], some (), some (), some (), some (),
      some (), some true⟩).2.2.2.2.2.2.2.2.1 ⟨true⟩ (by decide),
   (stopConversation_idempotent ⟨.errorState, .errorState, some ⟨.general, "boom"⟩, 50,
      some true, some true, some (), some [⟨false⟩], some (), some (), some (), some (),
      some (), some true⟩).1⟩

/-! ## Theorems about the streaming decision (claim C4) -/

/-- C4 counterexample: with a readable body and full MediaSource support
for the content type, the controller still does not attempt streaming —
it goes to buffered playback, because `enableStreaming` is hardcoded
false. -/
theorem streaming_not_attempted_despite_support :
    (PlaybackRuntime.mk true true true true).bodyReadable = true ∧
    (PlaybackRuntime.mk true true true true).hasMediaSource = true ∧
    (PlaybackRuntime.mk true true true true).isTypeSupportedIsFunction = true ∧
    (PlaybackRuntime.mk true true true true).mpegSupported = true ∧
    enableStreaming = false ∧
    initialPlaybackMode (PlaybackRuntime.mk true true true true) ≠ .streaming ∧
    initialPlaybackMode (PlaybackRuntime.mk true true true true) = .buffered := by
  decide

/-- C4 amended: because `enableStreaming` is hardcoded to false, for every
runtime `canUseMSE` is false and the playback controller goes directly to
full-buffer (blob) playback, regardless of MediaSource support and body
readability. -/
theorem playback_always_buffered :
    ∀ rt : PlaybackRuntime, canUseMSE rt = false ∧ initialPlaybackMode rt = .buffered :=
  fun _ => ⟨rfl, rfl⟩

/-! ## Theorems about the watchdog fallback (claim C5) -/

/-- C5 counterexample: when the watchdog fires after one of two chunks was
received, the blob it plays holds only the received chunk, which differs
from the bytes full-buffer playback of the response would have played. -/
theorem watchdog_bytes_differ_from_full_buffer :
    (watchdogFire ⟨false, false, [[1]]⟩).2 = some (watchdogFallbackBytes [[1], [2]] 1) ∧
    watchdogFallbackBytes [[1], [2]] 1 = [1] ∧
    fullBufferBytes [[1], [2]] = [1, 2] ∧
    watchdogFallbackBytes [[1], [2]] 1 ≠ fullBufferBytes [[1], [2]] := by
  decide

/-- C5 amended: if the watchdog fires before playback began, it aborts the
attempt and falls back to buffered playback of exactly the bytes received
so far — a prefix of the full response, with no received byte dropped;
this equals what full-buffer playback would play only when the whole body
was already received. -/
theorem watchdog_plays_received_prefix :
    ∀ (body : List (List ℕ)) (k : ℕ) (st : StreamingAttempt),
      st.started = false → st.aborted = false → st.receivedChunks = body.take k →
      (watchdogFire st).1.aborted = true ∧
      (watchdogFire st).2 = some (watchdogFallbackBytes body k) ∧
      watchdogFallbackBytes body k <+: fullBufferBytes body ∧
      (body.length ≤ k → watchdogFallbackBytes body k = fullBufferBytes body) := by
  rintro body k ⟨st1, st2, sc⟩ h1 h2 h3
  obtain rfl : st1 = false := h1
  obtain rfl : st2 = false := h2
  obtain rfl : sc = body.take k := h3
  refine ⟨rfl, rfl, ?_, fun hk => ?_⟩
  · refine ⟨(body.drop k).flatten, ?_⟩
    unfold watchdogFallbackBytes fullBufferBytes
    rw [← List.flatten_append, List.take_append_drop]
  · unfold watchdogFallbackBytes fullBufferBytes
    rw [List.take_of_length_le hk]

/-- Witness for `watchdog_plays_received_prefix`: both chunks already
received when the watchdog fires, so the fallback blob equals the full
buffer. -/
theorem watchdog_plays_received_prefix_witness :
    ((⟨false, false, [[1], [2]]⟩ : StreamingAttempt).started = false ∧
     (⟨false, false, [[1], [2]]⟩ : StreamingAttempt).aborted = false ∧
     (⟨false, false, [[1], [2]]⟩ : StreamingAttempt).receivedChunks =
       ([[1], [2]] : List (List ℕ)).take 2) ∧
    ((watchdogFire ⟨false, false, [[1], [2]]⟩).1.aborted = true ∧
     (watchdogFire ⟨false, false, [[1], [2]]⟩).2 = some (watchdogFallbackBytes [[1], [2]] 2) ∧
     watchdogFallbackBytes [[1], [2]] 2 <+: fullBufferBytes [[1], [2]] ∧
     (([[1], [2]] : List (List ℕ)).length ≤ 2 →
       watchdogFallbackBytes [[1], [2]] 2 = fullBufferBytes [[1], [2]])) :=
  ⟨⟨rfl, rfl, rfl⟩,
   watchdog_plays_received_prefix [[1], [2]] 2 ⟨false, false, [[1], [2]]⟩ rfl rfl rfl⟩

/-! ## Theorems about empty utterance payloads (claim C6) -/

/-- C6 counterexample: empty data events are filtered out, yet a stop with
zero captured chunks still issues an upload (with a zero-byte payload)
rather than discarding it. -/
theorem empty_utterance_still_uploaded :
    ondataavailable (ondataavailable [] []) [] = [] ∧
    (recorderOnStop []).2 = some ⟨[]⟩ ∧
    (recorderOnStop []).2 ≠ none := by
  decide

/-- C6 amended: when the recorder stops with zero non-empty chunks, the
chunk list is empty (empty data events were discarded on arrival) and the
stop handler does not error — but it still uploads the resulting empty
payload to the backend instead of discarding it, and the recorder is then
inactive until the next start. -/
theorem recorder_stop_empty_payload :
    ∀ datas : List (List ℕ), (∀ d ∈ datas, d = []) →
      datas.foldl ondataavailable [] = [] ∧
      recorderOnStop (datas.foldl ondataavailable []) = ([], some ⟨[]⟩) ∧
      mediaRecorderStop .recording = .inactive := by
  intro datas
  induction datas with
  | nil => exact fun _ => ⟨rfl, rfl, rfl⟩
  | cons d ds ih =>
    intro h
    have hd : d = [] := h d (List.mem_cons_self d ds)
    have hrest := ih (fun e he => h e (List.mem_cons_of_mem d he))
    subst hd
    have hstep : ondataavailable [] ([] : List ℕ) = [] := rfl
    refine ⟨?_, ?_, rfl⟩
    · show ds.foldl ondataavailable (ondataavailable [] []) = []
      rw [hstep]
      exact hrest.1
    · show recorderOnStop (ds.foldl ondataavailable (ondataavailable [] [])) = ([], some ⟨[]⟩)
      rw [hstep]
      exact hrest.2.1

/-- Witness for `recorder_stop_empty_payload` on a single empty data
event. -/
theorem recorder_stop_empty_payload_witness :
    (∀ d ∈ ([[]] : List (List ℕ)), d = []) ∧
    (([[]] : List (List ℕ)).foldl ondataavailable [] = [] ∧
     recorderOnStop (([[]] : List (List ℕ)).foldl ondataavailable []) = ([], some ⟨[]⟩) ∧
     mediaRecorderStop .recording = .inactive) :=
  ⟨by decide, recorder_stop_empty_payload [[]] (by decide)⟩

/-! ## Theorems about error-stage classification (claim C9) -/

/-- C9 counterexample: the server classifies two failures into different
stages (STT vs TTS), but the client outcome for any non-ok response is the
same generic api error — the stage never reaches the caller. -/
theorem stage_classification_not_reaching_client :
    classifyPipelineError "Whisper API error" = .stt ∧
    classifyPipelineError "TTS synthesis failed" = .tts ∧
    voiceProcessErrorResponse "Whisper API error" =
      (500, "STT service failed", "Whisper API error") ∧
    voiceProcessErrorResponse "TTS synthesis failed" =
      (500, "TTS service failed", "TTS synthesis failed") ∧
    clientNonOkOutcome ⟨false, 500, "STT service failed"⟩ =
      clientNonOkOutcome ⟨false, 500, "TTS service failed"⟩ ∧
    clientNonOkOutcome ⟨false, 500, "STT service failed"⟩ =
      some (⟨.api, "error.general"⟩, .errorState) := by
  decide

/-- C9 amended: on a non-2xx completion the server's catch block attaches a
stage classification (STT/LLM/TTS/unknown) inferred by string-matching the
error message, but the client-side handler for a non-ok response discards
the body and always produces the same generic api error and error state,
so the classification does not reach the caller of the client-side
request. -/
theorem pipeline_error_classification_server_side_only :
    (∀ msg : String,
      (voiceProcessErrorResponse msg).1 = 500 ∧
      (voiceProcessErrorResponse msg).2.1 = pipelineErrorText (classifyPipelineError msg) ∧
      (classifyPipelineError msg = .stt ↔
        (strContains msg "Whisper" || strContains msg "transcription") = true) ∧
      (classifyPipelineError msg = .llm ↔
        ((strContains msg "Whisper" || strContains msg "transcription") = false ∧
         (strContains msg "GPT" || strContains msg "LLM") = true))) ∧
    (∀ resp : HttpResponse, resp.ok = false →
      clientNonOkOutcome resp = some (⟨.api, "error.general"⟩, .errorState)) ∧
    (∀ r₁ r₂ : HttpResponse, r₁.ok = false → r₂.ok = false →
      clientNonOkOutcome r₁ = clientNonOkOutcome r₂) := by
  refine ⟨fun msg => ⟨rfl, rfl, ?_, ?_⟩, fun resp h => by simp [clientNonOkOutcome, h],
    fun r₁ r₂ h₁ h₂ => by simp [clientNonOkOutcome, h₁, h₂]⟩
  · unfold classifyPipelineError
    split_ifs with h1 h2 h3 <;> simp_all
  · unfold classifyPipelineError
    split_ifs with h1 h2 h3
    · simp_all
      exact fun hw htr => absurd h1 (by simp [hw, htr])
    · simp_all
    · simp_all
    · simp_all

/-- Witness for `pipeline_error_classification_server_side_only`: two
concrete non-ok responses with different bodies give identical client
outcomes. -/
theorem pipeline_error_classification_witness :
    (HttpResponse.mk false 500 "STT service failed").ok = false ∧
    (HttpResponse.mk false 404 "TTS service failed").ok = false ∧
    clientNonOkOutcome ⟨false, 500, "STT service failed"⟩ =
      clientNonOkOutcome ⟨false, 404, "TTS service failed"⟩ :=
  ⟨rfl, rfl,
   pipeline_error_classification_server_side_only.2.2
     ⟨false, 500, "STT service failed"⟩ ⟨false, 404, "TTS service failed"⟩ rfl rfl⟩

/-! ## Theorems about route-dependent config (claim C10) -/

/-- The language field is always the non-empty string "en" or "de". -/
theorem langField_ne_empty (c : ClientConfig) : langField c ≠ "" := by
  unfold langField
  split <;> decide

/-- On a dev route the form carries only the audio blob and the language
field. -/
theorem buildVoiceForm_dev (p : String) (c : ClientConfig) (h : isDevRoute p = true) :
    buildVoiceForm p c =
      { hasAudio := true, systemPrompt := none, temperature := none, voice := none
      , language := some (langField c), ttsProvider := none, ttsModel := none
      , greeting := none, openaiSpeed := none, piperSpeed := none, piperPitch := none
      , coquiTemperature := none } := by
  simp [buildVoiceForm, h]

/-- Resolving a language-only form: every other parameter comes from the
Firebase settings cache with its hardcoded default. -/
theorem resolveVoiceConfig_langOnly (c : ClientConfig) (fb : FirebaseSettings) :
    resolveVoiceConfig
      { hasAudio := true, systemPrompt := none, temperature := none, voice := none
      , language := some (langField c), ttsProvider := none, ttsModel := none
      , greeting := none, openaiSpeed := none, piperSpeed := none, piperPitch := none
      , coquiTemperature := none } fb =
      { language := langField c
      , systemPrompt := jsOrStr fb.systemPrompt
          (if langField c = "en" then defaultSystemPromptEn else defaultSystemPromptDe)
      , temperature := jsOrNum fb.temperature (7/10)
      , voice := jsOrStr fb.voice "alloy"
      , ttsProvider := jsOrStr fb.ttsProvider "openai"
      , ttsModel := jsOrStr fb.ttsModel "tts-1"
      , openaiSpeed := jsOrNum fb.openaiSpeed 1
      , piperSpeed := jsOrNum fb.piperSpeed 1
      , piperPitch := jsOrNum fb.piperPitch 1
      , coquiTemperature := jsOrNum fb.coquiTemperature (7/10) } := by
  have h := langField_ne_empty c
  simp [resolveVoiceConfig, jsOrStr, jsOrNum, h]

/-- C10 counterexample: on the home route with a configured temperature of
0 and Firebase temperature 2, the backend resolves temperature 2 — the
request field does not take priority; and an unset provider knob
(openaiSpeed) is not included in the form at all. -/
theorem request_zero_temperature_loses_to_firebase :
    isDevRoute "/" = false ∧
    (buildVoiceForm "/" ⟨"p", 0, "alloy", some "de", some "openai", some "tts-1", some "hi",
      none, none, none, none⟩).temperature = some 0 ∧
    (resolveVoiceConfig
      (buildVoiceForm "/" ⟨"p", 0, "alloy", some "de", some "openai", some "tts-1", some "hi",
        none, none, none, none⟩)
      ⟨some "de", some "fb", some 2, some "nova", some "openai", some "tts-1",
        none, none, none, none⟩).temperature = 2 ∧
    (2 : ℚ) ≠ 0 ∧
    (buildVoiceForm "/" ⟨"p", 0, "alloy", some "de", some "openai", some "tts-1", some "hi",
      none, none, none, none⟩).openaiSpeed = none := by
  decide

/-- C10 amended: on a dev route the upload contains only the audio blob
and the language field and the backend resolves every other parameter from
its Firebase settings cache with per-field hardcoded defaults; on any
other route the unconditional configuration fields are all included
(provider-specific knobs only when truthy), and a request field takes
priority over the corresponding Firebase setting when it is truthy
(non-empty string; non-zero number after clamping) — falsy request values
fall back to Firebase. -/
theorem route_dependent_config_resolution :
    (∀ (p : String) (c : ClientConfig), isDevRoute p = true →
      buildVoiceForm p c =
        { hasAudio := true, systemPrompt := none, temperature := none, voice := none
        , language := some (langField c), ttsProvider := none, ttsModel := none
        , greeting := none, openaiSpeed := none, piperSpeed := none, piperPitch := none
        , coquiTemperature := none }) ∧
    (∀ (p : String) (c : ClientConfig) (fb : FirebaseSettings), isDevRoute p = true →
      resolveVoiceConfig (buildVoiceForm p c) fb =
        { language := langField c
        , systemPrompt := jsOrStr fb.systemPrompt
            (if langField c = "en" then defaultSystemPromptEn else defaultSystemPromptDe)
        , temperature := jsOrNum fb.temperature (7/10)
        , voice := jsOrStr fb.voice "alloy"
        , ttsProvider := jsOrStr fb.ttsProvider "openai"
        , ttsModel := jsOrStr fb.ttsModel "tts-1"
        , openaiSpeed := jsOrNum fb.openaiSpeed 1
        , piperSpeed := jsOrNum fb.piperSpeed 1
        , piperPitch := jsOrNum fb.piperPitch 1
        , coquiTemperature := jsOrNum fb.coquiTemperature (7/10) }) ∧
    (∀ (p : String) (c : ClientConfig), isDevRoute p = false →
      (buildVoiceForm p c).hasAudio = true ∧
      (buildVoiceForm p c).systemPrompt = some c.systemPrompt ∧
      (buildVoiceForm p c).temperature = some c.temperature ∧
      (buildVoiceForm p c).voice = some c.voice ∧
      (buildVoiceForm p c).language = some (langField c) ∧
      (buildVoiceForm p c).ttsProvider = some (jsOrStr c.ttsProvider "openai") ∧
      (buildVoiceForm p c).ttsModel = some (jsOrStr c.ttsModel "tts-1") ∧
      (buildVoiceForm p c).greeting = some (jsOrStr c.greeting "") ∧
      ((buildVoiceForm p c).openaiSpeed =
        if truthyNum c.openaiSpeed then c.openaiSpeed else none)) ∧
    (∀ (p : String) (c : ClientConfig) (fb : FirebaseSettings), isDevRoute p = false →
      (c.systemPrompt ≠ "" →
        (resolveVoiceConfig (buildVoiceForm p c) fb).systemPrompt = c.systemPrompt) ∧
      (c.voice ≠ "" →
        (resolveVoiceConfig (buildVoiceForm p c) fb).voice = c.voice) ∧
      (c.temperature ≠ 0 → 0 ≤ c.temperature → c.temperature ≤ 2 →
        (resolveVoiceConfig (buildVoiceForm p c) fb).temperature = c.temperature) ∧
      (∀ x : ℚ, c.openaiSpeed = some x → x ≠ 0 →
        (resolveVoiceConfig (buildVoiceForm p c) fb).openaiSpeed = x)) := by
  refine ⟨fun p c h => buildVoiceForm_dev p c h,
    fun p c fb h => by rw [buildVoiceForm_dev p c h, resolveVoiceConfig_langOnly],
    fun p c h => by simp [buildVoiceForm, h], fun p c fb h => ?_⟩
  have hform : buildVoiceForm p c =
      { hasAudio := true
      , systemPrompt := some c.systemPrompt
      , temperature := some c.temperature
      , voice := some c.voice
      , language := some (langField c)
      , ttsProvider := some (jsOrStr c.ttsProvider "openai")
      , ttsModel := some (jsOrStr c.ttsModel "tts-1")
      , greeting := some (jsOrStr c.greeting "")
      , openaiSpeed := if truthyNum c.openaiSpeed then c.openaiSpeed else none
      , piperSpeed := if truthyNum c.piperSpeed then c.piperSpeed else none
      , piperPitch := if truthyNum c.piperPitch then c.piperPitch else none
      , coquiTemperature := if truthyNum c.coquiTemperature then c.coquiTemperature
          else none } := by
    simp [buildVoiceForm, h]
  rw [hform]
  refine ⟨fun hsp => ?_, fun hv => ?_, fun ht h0 h2 => ?_, fun x hx hxne => ?_⟩
  · simp [resolveVoiceConfig, jsOrStr, hsp]
  · simp [resolveVoiceConfig, jsOrStr, hv]
  · have hclamp : max 0 (min 2 c.temperature) = c.temperature := by
      rw [min_eq_right h2, max_eq_right h0]
    simp [resolveVoiceConfig, jsOrNum, hclamp, ht]
  · rw [hx]
    have : truthyNum (some x) = true := by simp [truthyNum, hxne]
    simp [resolveVoiceConfig, this, jsOrNum, hxne]

/-- Witness for `route_dependent_config_resolution`: on the home route a
truthy request temperature of 1 wins over Firebase temperature 2. -/
theorem route_dependent_config_resolution_witness :
    isDevRoute "/" = false ∧
    ((1:ℚ) ≠ 0 ∧ (0:ℚ) ≤ 1 ∧ (1:ℚ) ≤ 2) ∧
    (resolveVoiceConfig
      (buildVoiceForm "/" ⟨"p", 1, "alloy", some "de", some "openai", some "tts-1", some "hi",
        none, none, none, none⟩)
      ⟨some "de", some "fb", some 2, some "nova", some "openai", some "tts-1",
        none, none, none, none⟩).temperature = 1 :=
  ⟨rfl, ⟨by norm_num, by norm_num, by norm_num⟩,
   (route_dependent_config_resolution.2.2.2 "/"
      ⟨"p", 1, "alloy", some "de", some "openai", some "tts-1", some "hi",
        none, none, none, none⟩
      ⟨some "de", some "fb", some 2, some "nova", some "openai", some "tts-1",
        none, none, none, none⟩ rfl).2.2.1
    (by norm_num) (by norm_num) (by norm_num)⟩

end VoicePipeline
